import Mathlib

/-!
Verification of the telegram-client repository's lifecycle / authentication
coordinator against its specification.  The Go sources are shallowly embedded:
pure logic becomes Lean functions, stateful handlers become explicit
state-passing functions, goroutine/context timing becomes done-time arithmetic
over `Option ℕ`, and channels become generation counters.
-/

namespace TelegramClient

/-! ### Substring matching (Go `strings.Contains`) -/

/-- Go `strings.HasPrefix` on character lists: first argument is the pattern. -/
def hasPrefixCh : List Char → List Char → Bool
  | [], _ => true
  | _ :: _, [] => false
  | a :: as, b :: bs => a = b && hasPrefixCh as bs

/-- Go `strings.Contains hay pat` (pattern given first): true iff `pat` occurs
as a contiguous run inside the haystack.  The empty pattern matches anywhere. -/
def containsSub (pat : List Char) : List Char → Bool
  | [] => pat.isEmpty
  | c :: rest => hasPrefixCh pat (c :: rest) || containsSub pat rest

/-- `strings.Contains` lifted to `String`. -/
def containsStr (hay pat : String) : Bool :=
  containsSub pat.data hay.data

/-! ### Error classification (`src/mcp/auth.go`, `isETCDConnectionError` /
`isFatalClientError`) -/

/-- A Go `error` value as observed by the classifiers: the text returned by
`err.Error()` and whether `errors.Is(err, session.ErrNotFound)` holds. -/
structure GoError where
  text : String
  isNotFound : Bool
deriving DecidableEq, Repr

/-- The connection-failure markers listed in `isETCDConnectionError`
(`src/mcp/auth.go` lines 194-200). -/
def connectionErrorMarkers : List String :=
  ["connection refused", "dial tcp", "no route to host", "i/o timeout",
   "failed to send HTTP request to ETCD"]

/-- `isETCDConnectionError` (`src/mcp/auth.go` lines 190-215): `session.ErrNotFound`
is excluded first; otherwise the error text is scanned for connection markers. -/
def isETCDConnectionError (e : GoError) : Bool :=
  if e.isNotFound then false
  else connectionErrorMarkers.any (fun m => containsStr e.text m)

/-- The fatal-error markers listed in `isFatalClientError`
(`src/mcp/auth.go` lines 222-234). -/
def fatalErrorMarkers : List String :=
  ["engine was closed", "connection dead", "waitSession", "connection closed",
   "failed to connect", "i/o timeout", "broken pipe", "EOF", "context canceled",
   "no such host", "network is unreachable"]

/-- `isFatalClientError` (`src/mcp/auth.go` lines 219-243): substring scan of the
error text against the fatal markers. -/
def isFatalClientError (errText : String) : Bool :=
  fatalErrorMarkers.any (fun m => containsStr errText m)

/-! ### AuthCoordinator state (`Server.AuthState`, `Server.Code`,
`Server.CodeReady`) -/

/-- The auth-relevant fields of `mcp.Server`: `AuthState` is the literal Go
string ("none" / "awaiting_code"), `Code` the last stored code, and
`CodeReadyGen` counts how many times the one-shot `CodeReady` channel has been
closed and replaced (`close(s.CodeReady); s.CodeReady = make(chan struct{})`). -/
structure AuthFlowState where
  AuthState : String
  Code : String
  CodeReadyGen : ℕ
deriving DecidableEq, Repr

/-- The `code` argument of a `telegram_send_code` tool call: absent, present but
not a string, or a string value. -/
inductive CodeParam where
  | missing
  | nonString
  | str (v : String)
deriving DecidableEq, Repr

/-- The four possible results of `handleSendCode` (`src/unnamed/part_003`
lines 36-63), in source order. -/
inductive SendCodeResult where
  | invalidState
  | missingParam
  | invalidFormat
  | accepted
deriving DecidableEq, Repr

/-- `handleSendCode` (`src/unnamed/part_003` lines 36-63): under `AuthMutex`,
reject unless `AuthState == "awaiting_code"`; then validate the parameter; on
success store the code, set `AuthState = "none"` and fire/replace the one-shot
channel. -/
def handleSendCode (s : AuthFlowState) (p : CodeParam) :
    AuthFlowState × SendCodeResult :=
  if s.AuthState ≠ "awaiting_code" then (s, .invalidState)
  else
    match p with
    | .missing => (s, .missingParam)
    | .nonString => (s, .invalidFormat)
    | .str v =>
        ({ AuthState := "none", Code := v, CodeReadyGen := s.CodeReadyGen + 1 },
         .accepted)

/-- A sequence of `handleSendCode` calls (the `AuthMutex` serialises them),
returning the final state and the per-call results. -/
def runSendCodes (s : AuthFlowState) : List CodeParam →
    AuthFlowState × List SendCodeResult
  | [] => (s, [])
  | p :: ps =>
      let c := handleSendCode s p
      let r := runSendCodes c.1 ps
      (r.1, c.2 :: r.2)

/-- Number of accepted submissions in a result list. -/
def countAccepted : List SendCodeResult → ℕ
  | [] => 0
  | r :: rs => (if r = .accepted then 1 else 0) + countAccepted rs

/-- `waitForCode` entry (`src/mcp/auth.go` lines 248-250): under `AuthMutex`,
set `AuthState = "awaiting_code"`. -/
def waitForCodeEnter (s : AuthFlowState) : AuthFlowState :=
  { s with AuthState := "awaiting_code" }

/-- Which arm of the `select` in `waitForCode` fires: the one-shot code channel
or context cancellation. -/
inductive WaitOutcome where
  | codeReady
  | cancelled
deriving DecidableEq, Repr

/-- The `select` at the end of `waitForCode` (`src/mcp/auth.go` lines 264-271):
on `CodeReady` return the stored code, on `ctx.Done()` return an error.  Neither
arm touches `AuthState`. -/
def waitForCodeSelect (s : AuthFlowState) (o : WaitOutcome) :
    AuthFlowState × Except Unit String :=
  match o with
  | .codeReady => (s, .ok s.Code)
  | .cancelled => (s, .error ())

/-- A full `waitForCode` execution whose `select` resolves with outcome `o`
without any intervening `handleSendCode` call (the cancellation path). -/
def waitForCodeRun (s : AuthFlowState) (o : WaitOutcome) :
    AuthFlowState × Except Unit String :=
  waitForCodeSelect (waitForCodeEnter s) o

/-- The operations that can touch `AuthState`: `waitForCode` entry, a
`telegram_send_code` call, or `waitForCode` aborting via `ctx.Done()`. -/
inductive AuthOp where
  | enterWait
  | submit (p : CodeParam)
  | cancelWait
deriving DecidableEq, Repr

/-- Effect of each operation on the auth state, read off the three code sites
(`waitForCode` entry, `handleSendCode`, and the `ctx.Done()` arm which leaves
the state untouched). -/
def authStep (s : AuthFlowState) : AuthOp → AuthFlowState
  | .enterWait => waitForCodeEnter s
  | .submit p => (handleSendCode s p).1
  | .cancelWait => (waitForCodeSelect s .cancelled).1

/-! ### Context done-times (`setupTelegramClient` background task,
`src/mcp/auth.go` lines 102-154)

A Go context is modelled by the time at which its `Done` channel closes:
`some t` means it fires at instant `t`, `none` means it never fires. -/

/-- Earliest of two optional done-times (`none` = never). -/
def ctxMin : Option ℕ → Option ℕ → Option ℕ
  | Option.none, b => b
  | some a, Option.none => some a
  | some a, some b => some (min a b)

/-- Timing environment of one run of the goroutine started by
`setupTelegramClient`: when the context passed to `setupTelegramClient` fires,
and the instant the goroutine starts. -/
structure SetupTaskEnv where
  parentDone : Option ℕ
  startTime : ℕ
deriving DecidableEq, Repr

/-- `clientCtx, clientCancel := context.WithCancel(ctx)` (line 104): until the
deferred `clientCancel()` runs (after `client.Run` returns), `clientCtx` fires
exactly when the parent does. -/
def clientCtxDone (e : SetupTaskEnv) : Option ℕ :=
  e.parentDone

/-- `initCtx, initCancel := context.WithTimeout(clientCtx, 30*time.Second)`
(line 108): fires at the earlier of `clientCtx` and `startTime + 30`. -/
def initCtxDone (e : SetupTaskEnv) : Option ℕ :=
  ctxMin (clientCtxDone e) (some (e.startTime + 30))

/-- The context governing the handle's connection loop: `client.Run` is invoked
with `initCtx` (line 112), so the loop's authority to run ends when `initCtx`
fires. -/
def connLoopDeadline (e : SetupTaskEnv) : Option ℕ :=
  initCtxDone e

/-- The success callback's wait: after `attemptAuth` succeeds it blocks on
`<-clientCtx.Done()` (line 123), i.e. until `clientCtx` fires. -/
def authSuccessWaitDone (e : SetupTaskEnv) : Option ℕ :=
  clientCtxDone e

/-! ### Readiness writes (`Server.ClientReady`)

Every assignment to `ClientReady` in the repository, one event per write site.
-/

/-- The write sites of `ClientReady`:
* `setupReset` — `setupTelegramClient`, `src/mcp/auth.go` line 41 (the last
  write of the synchronous part of `setup`);
* `authSuccess` — background task after `attemptAuth` returns nil, line 118;
* `runFailed` — background task when `client.Run` returns an error, line 130;
* `monitorProbeAuthorized` / `monitorProbeNotAuthorized` / `monitorProbeError`
  — `monitorClientStatus`, `src/mcp/server.go` lines 188, 194, 166/178;
* `checkProbeAuthorized` / `checkProbeNotAuthorized` / `checkProbeError` —
  `checkClientStatus`, lines 255, 260, 236/247;
* `toolAuthCheckFailed` — the tool handlers marking the client not ready after
  a failed or timed-out auth-status check (`src/unnamed/part_003` lines
  120-123, 149-152, and the matching sites in `src/unnamed/part_011`). -/
inductive ReadyEvent where
  | setupReset
  | authSuccess
  | runFailed
  | monitorProbeAuthorized
  | monitorProbeNotAuthorized
  | monitorProbeError
  | checkProbeAuthorized
  | checkProbeNotAuthorized
  | checkProbeError
  | toolAuthCheckFailed
deriving DecidableEq, Repr

/-- The value each write site assigns to `ClientReady`. -/
def readyAfter : ReadyEvent → Bool
  | .authSuccess => true
  | .monitorProbeAuthorized => true
  | .checkProbeAuthorized => true
  | _ => false

/-- Readiness after a sequence of write events starting from flag `r`. -/
def applyReady (r : Bool) : List ReadyEvent → Bool
  | [] => r
  | e :: es => applyReady (readyAfter e) es

/-- The writes to `ClientReady` performed by the synchronous body of
`setupTelegramClient` (only the reset at line 41; the goroutine's writes happen
after `setup` has returned). -/
def setupSyncWrites : List ReadyEvent :=
  [.setupReset]

/-! ### Health monitor (`monitorClientStatus`) and on-demand probe
(`checkClientStatus`), `src/mcp/server.go` lines 126-264 -/

/-- What one probe observes: no client handle (with whether the recovery
`setupTelegramClient` call errors), a failed `Auth().Status` call carrying the
error text (a probe timeout is such a failure with text
"context deadline exceeded"), or a status result with its `Authorized` bit.
`setupFails` records whether a `setupTelegramClient` call made during the tick
would return an error. -/
inductive TickInput where
  | noClient (setupFails : Bool)
  | statusErr (errText : String) (setupFails : Bool)
  | statusOk (authorized : Bool) (setupFails : Bool)
deriving DecidableEq, Repr

/-- Outcome of one probe: the new consecutive-error counter, the value written
to `ClientReady` (if any), and how many times `setupTelegramClient` was
invoked. -/
structure TickEffect where
  counter : ℕ
  readyUpd : Option Bool
  setups : ℕ
deriving DecidableEq, Repr

/-- One `ticker.C` iteration of `monitorClientStatus` (`src/mcp/server.go`
lines 139-205) with consecutive-error counter `c` and `maxConsecErrors = 3`:
* nil client → call `setup`; on error increment the counter (line 145);
* status error → increment the counter first (line 159); if it reached the
  threshold or the error is fatal-classified, mark not-ready and call `setup`,
  zeroing the counter only when `setup` returns nil (lines 162-174); otherwise
  just mark not-ready;
* authorized → zero the counter, mark ready;
* not authorized → mark not-ready, increment the counter, and call `setup` at
  the threshold (the counter is not reset there, lines 190-204). -/
def monitorTick (c : ℕ) : TickInput → TickEffect
  | .noClient setupFails =>
      ⟨if setupFails then c + 1 else c, Option.none, 1⟩
  | .statusErr t setupFails =>
      if 3 ≤ c + 1 ∨ isFatalClientError t = true then
        ⟨if setupFails then c + 1 else 0, some false, 1⟩
      else
        ⟨c + 1, some false, 0⟩
  | .statusOk true _ => ⟨0, some true, 0⟩
  | .statusOk false _ =>
      if 3 ≤ c + 1 then ⟨c + 1, some false, 1⟩
      else ⟨c + 1, some false, 0⟩

/-- A run of consecutive monitor ticks from counter `c`: final counter and the
total number of `setupTelegramClient` invocations. -/
def runMonitor (c : ℕ) : List TickInput → ℕ × ℕ
  | [] => (c, 0)
  | t :: ts =>
      let e := monitorTick c t
      let r := runMonitor e.counter ts
      (r.1, e.setups + r.2)

/-- `checkClientStatus` (`src/mcp/server.go` lines 212-264), the on-demand
probe: nil client → `setup`; status error → not-ready, plus `setup` exactly
when the error is fatal-classified; authorized → ready; not authorized →
not-ready.  It keeps no consecutive-error counter (the `counter` field is
unused and left at 0). -/
def checkTick : TickInput → TickEffect
  | .noClient _ => ⟨0, Option.none, 1⟩
  | .statusErr t _ =>
      if isFatalClientError t = true then ⟨0, some false, 1⟩
      else ⟨0, some false, 0⟩
  | .statusOk true _ => ⟨0, some true, 0⟩
  | .statusOk false _ => ⟨0, some false, 0⟩

/-- A probe timeout: `Auth().Status` fails with the deadline-exceeded error of
the 10-second `checkCtx`. -/
def timeoutTick : TickInput :=
  .statusErr "context deadline exceeded" false

/-! ### Notification dispatch (`SendNotification`, `src/mcp/server.go`
lines 286-336) -/

/-- The state `SendNotification` reads: whether `SSEServer` is non-nil, the
designated active `SessionID` (Go zero value "" = none), and the snapshot of
registered session ids iterated via `clientSessions.Range`. -/
structure NotifyEnv where
  sseServerUp : Bool
  SessionID : String
  sessions : List String
deriving DecidableEq, Repr

/-- `SendNotification`: returns the list of attempted deliveries as
(session id, delivery succeeded) pairs; `deliver` models
`SSEServer.SendEventToSession` (its per-listener success).  A nil `SSEServer`
aborts with no attempts; a non-empty `SessionID` targets only that session;
otherwise every registered session is attempted, failures merely logged (the
function is total: dispatch never fails as a unit). -/
def SendNotification (env : NotifyEnv) (deliver : String → Bool) :
    List (String × Bool) :=
  if env.sseServerUp = false then []
  else if env.SessionID ≠ "" then [(env.SessionID, deliver env.SessionID)]
  else env.sessions.map (fun sid => (sid, deliver sid))

/-! ### Base64 (Go `encoding/base64` `StdEncoding`), used by
`ETCDSessionStorage.Save` / `Load` (`src/unnamed/part_010`) -/

/-- The standard base64 alphabet. -/
def b64Alphabet : List Char :=
  "ABCDEFGHIJKLMNOPQRSTUVWXYZabcdefghijklmnopqrstuvwxyz0123456789+/".data

/-- Sextet value → alphabet character. -/
def b64EncChar (n : ℕ) : Char :=
  b64Alphabet.getD n 'A'

/-- Position of `c` in a character list, counting from `i`. -/
def b64IdxFrom (c : Char) : List Char → ℕ → Option ℕ
  | [], _ => Option.none
  | a :: as, i => if a = c then some i else b64IdxFrom c as (i + 1)

/-- Alphabet character → sextet value (`none` for a non-alphabet character,
including the padding character). -/
def b64DecChar (c : Char) : Option ℕ :=
  b64IdxFrom c b64Alphabet 0

/-- `base64.StdEncoding.EncodeToString` on a byte list: 3-byte groups become 4
alphabet characters; a trailing 1- or 2-byte group is padded with `'='`. -/
def b64EncodeBytes : List ℕ → List Char
  | [] => []
  | [b1] =>
      [b64EncChar (b1 / 4), b64EncChar (b1 % 4 * 16), '=', '=']
  | [b1, b2] =>
      [b64EncChar (b1 / 4), b64EncChar (b1 % 4 * 16 + b2 / 16),
       b64EncChar (b2 % 16 * 4), '=']
  | b1 :: b2 :: b3 :: rest =>
      b64EncChar (b1 / 4) :: b64EncChar (b1 % 4 * 16 + b2 / 16) ::
      b64EncChar (b2 % 16 * 4 + b3 / 64) :: b64EncChar (b3 % 64) ::
      b64EncodeBytes rest

/-- `base64.StdEncoding.DecodeString` on a character list: consumes 4-character
quanta; `'=='` / `'='` padding is accepted only in the final quantum; any
non-alphabet character elsewhere (or a length not a multiple of 4) is an
error (`none`). -/
def b64DecodeBytes : List Char → Option (List ℕ)
  | [] => some []
  | c1 :: c2 :: c3 :: c4 :: rest =>
      (match b64DecChar c1, b64DecChar c2 with
       | some n1, some n2 =>
           if c3 = '=' ∧ c4 = '=' ∧ rest = [] then
             some [n1 * 4 + n2 / 16]
           else if c4 = '=' ∧ rest = [] then
             match b64DecChar c3 with
             | some n3 => some [n1 * 4 + n2 / 16, n2 % 16 * 16 + n3 / 4]
             | Option.none => Option.none
           else
             match b64DecChar c3, b64DecChar c4 with
             | some n3, some n4 =>
                 (b64DecodeBytes rest).map
                   (fun bs => (n1 * 4 + n2 / 16) :: (n2 % 16 * 16 + n3 / 4) ::
                              (n3 % 4 * 64 + n4) :: bs)
             | _, _ => Option.none
       | _, _ => Option.none)
  | _ => Option.none

/-! ### ETCD session storage (`src/unnamed/part_010`) -/

/-- Result of `ETCDSessionStorage.Load`, mirroring the distinct Go error
identities: `ok` with the decoded session bytes, `session.ErrNotFound`,
`ETCDConnectionError` (with its `Msg`), a JSON unmarshal failure, or a base64
decode failure of the stored value. -/
inductive LoadResult where
  | ok (data : List ℕ)
  | notFound
  | connError (msg : String)
  | parseError
  | decodeError
deriving DecidableEq, Repr

/-- Outcome of the HTTP exchange performed by `Load` against `/v3/kv/range`:
request construction fails, sending fails, reading the body fails, or a
response arrives with a status code and (if the body is valid JSON) the parsed
`kvs` list of (key, value) pairs, values still base64-encoded. -/
inductive ExchangeOutcome where
  | reqCreateFail
  | sendFail
  | readBodyFail
  | response (statusCode : ℕ) (parsed : Option (List (String × String)))
deriving DecidableEq, Repr

/-- The outcomes in which the transport failed or the server answered non-OK:
exactly the cases `Load` wraps in `ETCDConnectionError`
(`src/unnamed/part_010` lines 135-169). -/
def transportFailed : ExchangeOutcome → Bool
  | .reqCreateFail => true
  | .sendFail => true
  | .readBodyFail => true
  | .response code _ => code ≠ 200

/-- `ETCDSessionStorage.Load` (`src/unnamed/part_010` lines 119-185) as a
function of the exchange outcome: transport failures and non-OK statuses become
`ETCDConnectionError`s with the source's messages; an OK response is parsed; an
empty `kvs` list is `session.ErrNotFound`; otherwise the first value is
base64-decoded. -/
def ETCDSessionStorage.Load : ExchangeOutcome → LoadResult
  | .reqCreateFail => .connError "failed to create HTTP request"
  | .sendFail => .connError "failed to send HTTP request to ETCD"
  | .readBodyFail => .connError "failed to read ETCD response body"
  | .response code parsed =>
      if code ≠ 200 then .connError "ETCD returned non-OK status"
      else
        match parsed with
        | Option.none => .parseError
        | some [] => .notFound
        | some ((_, v) :: _) =>
            match b64DecodeBytes v.data with
            | some bs => .ok bs
            | Option.none => .decodeError

/-- The value string `ETCDSessionStorage.Save` (`src/unnamed/part_010` lines
188-237) stores under its key: the base64 encoding of the session bytes. -/
def ETCDSessionStorage.savedValue (data : List ℕ) : String :=
  ⟨b64EncodeBytes data⟩

/-- `Load` after a successful `Save` of `data`, assuming the remote key-value
server returns the stored base64 value unchanged in an OK response with one
entry. -/
def ETCDSessionStorage.loadAfterSave (key : String) (data : List ℕ) :
    LoadResult :=
  ETCDSessionStorage.Load
    (.response 200 (some [(key, ETCDSessionStorage.savedValue data)]))

/-- A `session.ErrNotFound`-satisfying error whose text nevertheless contains
connection-failure markers (as produced by wrapping the `Load` send-failure
message). -/
def notFoundWithConnText : GoError :=
  ⟨"failed to send HTTP request to ETCD: dial tcp 10.0.0.1:2379: connection refused",
   true⟩

/-! ## Supporting lemmas -/

theorem handleSendCode_not_awaiting (s : AuthFlowState) (p : CodeParam)
    (h : s.AuthState ≠ "awaiting_code") :
    handleSendCode s p = (s, .invalidState) := by
  simp [handleSendCode, h]

theorem handleSendCode_reject (s : AuthFlowState) (p : CodeParam)
    (h : (handleSendCode s p).2 ≠ .accepted) :
    (handleSendCode s p).1 = s := by
  by_cases hst : s.AuthState = "awaiting_code"
  · cases p with
    | missing => simp [handleSendCode, hst]
    | nonString => simp [handleSendCode, hst]
    | str v => simp [handleSendCode, hst] at h
  · simp [handleSendCode, hst]

theorem runSendCodes_count_zero (s : AuthFlowState)
    (h : s.AuthState ≠ "awaiting_code") :
    ∀ ps : List CodeParam, countAccepted (runSendCodes s ps).2 = 0 := by
  intro ps
  induction ps with
  | nil => rfl
  | cons p ps ih =>
      simp only [runSendCodes, handleSendCode_not_awaiting s p h, countAccepted]
      simpa [countAccepted] using ih

theorem runSendCodes_count_le_one (s : AuthFlowState) (ps : List CodeParam) :
    countAccepted (runSendCodes s ps).2 ≤ 1 := by
  induction ps generalizing s with
  | nil => simp [runSendCodes, countAccepted]
  | cons p ps ih =>
      by_cases hst : s.AuthState = "awaiting_code"
      · cases p with
        | missing =>
            simpa [runSendCodes, handleSendCode, hst, countAccepted] using ih s
        | nonString =>
            simpa [runSendCodes, handleSendCode, hst, countAccepted] using ih s
        | str v =>
            have h0 := runSendCodes_count_zero
              ⟨"none", v, s.CodeReadyGen + 1⟩ (by simp) ps
            simp [runSendCodes, handleSendCode, hst, countAccepted, h0]
      · have h0 := runSendCodes_count_zero s hst (p :: ps)
        omega

theorem readyAfter_false_of_ne (e : ReadyEvent)
    (h1 : e ≠ .authSuccess) (h2 : e ≠ .monitorProbeAuthorized)
    (h3 : e ≠ .checkProbeAuthorized) : readyAfter e = false := by
  cases e <;> simp_all [readyAfter]

theorem b64DecChar_encChar : ∀ n : ℕ, n < 64 → b64DecChar (b64EncChar n) = some n := by
  decide

theorem b64EncChar_ne_pad : ∀ n : ℕ, n < 64 → b64EncChar n ≠ '=' := by
  decide

theorem b64_roundtrip : ∀ v : List ℕ, (∀ b ∈ v, b < 256) →
    b64DecodeBytes (b64EncodeBytes v) = some v
  | [], _ => rfl
  | [b1], h => by
      have hb1 : b1 < 256 := h b1 (by simp)
      have h1 : b1 / 4 < 64 := by omega
      have h2 : b1 % 4 * 16 < 64 := by omega
      simp only [b64EncodeBytes, b64DecodeBytes,
        b64DecChar_encChar _ h1, b64DecChar_encChar _ h2]
      simp only [and_self, if_true, Option.some.injEq, List.cons.injEq,
        and_true, true_and]
      omega
  | [b1, b2], h => by
      have hb1 : b1 < 256 := h b1 (by simp)
      have hb2 : b2 < 256 := h b2 (by simp)
      have h1 : b1 / 4 < 64 := by omega
      have h2 : b1 % 4 * 16 + b2 / 16 < 64 := by omega
      have h3 : b2 % 16 * 4 < 64 := by omega
      have he3 := b64EncChar_ne_pad _ h3
      simp only [b64EncodeBytes, b64DecodeBytes,
        b64DecChar_encChar _ h1, b64DecChar_encChar _ h2,
        b64DecChar_encChar _ h3]
      simp only [he3, false_and, if_false, and_self, if_true,
        Option.some.injEq, List.cons.injEq, and_true]
      omega
  | b1 :: b2 :: b3 :: rest, h => by
      have hb1 : b1 < 256 := h b1 (by simp)
      have hb2 : b2 < 256 := h b2 (by simp)
      have hb3 : b3 < 256 := h b3 (by simp)
      have h1 : b1 / 4 < 64 := by omega
      have h2 : b1 % 4 * 16 + b2 / 16 < 64 := by omega
      have h3 : b2 % 16 * 4 + b3 / 64 < 64 := by omega
      have h4 : b3 % 64 < 64 := by omega
      have he3 := b64EncChar_ne_pad _ h3
      have he4 := b64EncChar_ne_pad _ h4
      have ih := b64_roundtrip rest (fun b hb => h b (by simp [hb]))
      simp only [b64EncodeBytes, b64DecodeBytes,
        b64DecChar_encChar _ h1, b64DecChar_encChar _ h2,
        b64DecChar_encChar _ h3, b64DecChar_encChar _ h4]
      simp only [he3, he4, false_and, and_false, if_false, ih,
        Option.map_some', Option.some.injEq, List.cons.injEq, and_true]
      omega

/-! ## Claim theorems -/

/-- C1: In every sequence of `handleSendCode` calls, at most one call is
accepted between two consecutive transitions of `AuthState` into
"awaiting_code"; every call made while `AuthState` is not "awaiting_code"
returns the invalid-state error with the state untouched; and any rejected
call (invalid state, missing parameter, or non-string parameter) leaves
`AuthState`, the stored `Code`, and the one-shot `CodeReady` signal
unchanged. -/
theorem C1_handleSendCode_spec (s : AuthFlowState) (p : CodeParam)
    (ps : List CodeParam) :
    (s.AuthState ≠ "awaiting_code" → handleSendCode s p = (s, .invalidState))
    ∧ ((handleSendCode s p).2 ≠ .accepted → (handleSendCode s p).1 = s)
    ∧ countAccepted (runSendCodes s ps).2 ≤ 1 :=
  ⟨handleSendCode_not_awaiting s p, handleSendCode_reject s p,
   runSendCodes_count_le_one s ps⟩

/-- C1 witness: a submission while idle is rejected without a state change, and
three submissions during one awaiting-code window yield at most one
acceptance. -/
theorem C1_handleSendCode_spec_witness :
    handleSendCode ⟨"none", "", 0⟩ (.str "12345") = (⟨"none", "", 0⟩, .invalidState)
    ∧ countAccepted
        (runSendCodes ⟨"awaiting_code", "", 0⟩
          [.str "1", .str "2", .str "3"]).2 ≤ 1 :=
  ⟨(C1_handleSendCode_spec ⟨"none", "", 0⟩ (.str "12345") []).1 (by decide),
   (C1_handleSendCode_spec ⟨"awaiting_code", "", 0⟩ .missing
      [.str "1", .str "2", .str "3"]).2.2⟩

/-- C2 counterexample: with the parent token firing at instant 100 and the
background task starting at 0, the connection loop's governing context
(`initCtx`) expires at instant 30, not when the parent cancellation token
fires — refuting the claim that the loop is kept alive until the parent token
and not until the initialization timeout. -/
theorem C2_connLoop_counterexample :
    connLoopDeadline ⟨some 100, 0⟩ = some 30
    ∧ authSuccessWaitDone ⟨some 100, 0⟩ = some 100
    ∧ connLoopDeadline ⟨some 100, 0⟩ ≠ (⟨some 100, 0⟩ : SetupTaskEnv).parentDone := by
  refine ⟨rfl, rfl, by decide⟩

/-- C2 (amended): on a successful authentication attempt the background task
sets readiness true and its callback then blocks until the parent cancellation
token fires; but the connection loop itself runs under `initCtx`, the
30-second initialization timeout, so whenever the parent token outlives
`startTime + 30` the loop's governing context expires at the initialization
deadline, strictly before the parent cancellation. -/
theorem C2_connLoop_bound (e : SetupTaskEnv) (t : ℕ)
    (hp : e.parentDone = some t) (hlt : e.startTime + 30 < t) :
    readyAfter ReadyEvent.authSuccess = true
    ∧ authSuccessWaitDone e = e.parentDone
    ∧ connLoopDeadline e = some (e.startTime + 30)
    ∧ connLoopDeadline e ≠ e.parentDone := by
  refine ⟨rfl, rfl, ?_, ?_⟩
  · simp only [connLoopDeadline, initCtxDone, clientCtxDone, ctxMin, hp,
      Option.some.injEq]
    omega
  · simp only [connLoopDeadline, initCtxDone, clientCtxDone, ctxMin, hp,
      ne_eq, Option.some.injEq]
    omega

/-- C2 witness: the amended bound at parent cancellation 100 and start time 0. -/
theorem C2_connLoop_bound_witness :
    readyAfter ReadyEvent.authSuccess = true
    ∧ authSuccessWaitDone ⟨some 100, 0⟩ = (⟨some 100, 0⟩ : SetupTaskEnv).parentDone
    ∧ connLoopDeadline ⟨some 100, 0⟩ = some 30
    ∧ connLoopDeadline ⟨some 100, 0⟩ ≠ (⟨some 100, 0⟩ : SetupTaskEnv).parentDone :=
  C2_connLoop_bound ⟨some 100, 0⟩ 100 rfl (by decide)

/-- C3: when the synchronous part of `setupTelegramClient` completes, the last
write it performed left `ClientReady` false whatever it was before; readiness
then stays false across any sequence of readiness writes that contains neither
a successful authentication nor an authorized probe; and the only write sites
that ever set `ClientReady` true are the authentication-success site and the
two authorized-probe sites. -/
theorem C3_readiness_after_setup :
    (∀ r : Bool, applyReady r setupSyncWrites = false)
    ∧ (∀ es : List ReadyEvent,
        (∀ e ∈ es, e ≠ ReadyEvent.authSuccess
          ∧ e ≠ ReadyEvent.monitorProbeAuthorized
          ∧ e ≠ ReadyEvent.checkProbeAuthorized) →
        applyReady false es = false)
    ∧ (∀ e : ReadyEvent, readyAfter e = true →
        e = ReadyEvent.authSuccess ∨ e = ReadyEvent.monitorProbeAuthorized
        ∨ e = ReadyEvent.checkProbeAuthorized) := by
  refine ⟨fun r => rfl, ?_, ?_⟩
  · intro es
    induction es with
    | nil => intro _; rfl
    | cons e es ih =>
        intro hall
        have he := hall e (by simp)
        simp only [applyReady, readyAfter_false_of_ne e he.1 he.2.1 he.2.2]
        exact ih (fun x hx => hall x (by simp [hx]))
  · intro e he
    cases e <;> simp_all [readyAfter]

/-- C3 witness: starting from a ready client, the setup reset leaves readiness
false, and a run of failure events never turns it back on. -/
theorem C3_readiness_after_setup_witness :
    applyReady true setupSyncWrites = false
    ∧ applyReady false
        [ReadyEvent.runFailed, ReadyEvent.monitorProbeError,
         ReadyEvent.toolAuthCheckFailed] = false :=
  ⟨C3_readiness_after_setup.1 true,
   C3_readiness_after_setup.2.1
     [ReadyEvent.runFailed, ReadyEvent.monitorProbeError,
      ReadyEvent.toolAuthCheckFailed] (by decide)⟩

/-- C4 counterexample: three consecutive probe timeouts with threshold 3 do
trigger `setupTelegramClient` exactly once, but the consecutive-error counter
is back at zero immediately after the escalation tick, although no probe in
the run ever observed an authorized status — refuting "the counter is reset
to zero only after a subsequent successful probe reports the rebuilt handle
as authorized, never earlier". -/
theorem C4_counter_reset_counterexample :
    runMonitor 0 [timeoutTick, timeoutTick] = (2, 0)
    ∧ runMonitor 0 [timeoutTick, timeoutTick, timeoutTick] = (0, 1)
    ∧ (∀ t ∈ [timeoutTick, timeoutTick, timeoutTick],
        t ≠ TickInput.statusOk true false ∧ t ≠ TickInput.statusOk true true) := by
  refine ⟨by decide, by decide, by decide⟩

/-- C4 (amended): a probe timeout is non-fatal-classified; below the threshold
a timeout tick only increments the counter and calls no setup; at the
threshold the monitor triggers `setupTelegramClient` exactly once and resets
the counter to zero in that same tick as soon as the setup call returns
without error — it does not wait for a subsequent authorized probe. -/
theorem C4_escalation (c : ℕ) :
    isFatalClientError "context deadline exceeded" = false
    ∧ (3 ≤ c + 1 → monitorTick c timeoutTick = ⟨0, some false, 1⟩)
    ∧ (c + 1 < 3 → monitorTick c timeoutTick = ⟨c + 1, some false, 0⟩)
    ∧ runMonitor 0 [timeoutTick, timeoutTick, timeoutTick] = (0, 1) := by
  have hfatal : isFatalClientError "context deadline exceeded" = false := by decide
  refine ⟨hfatal, ?_, ?_, by decide⟩
  · intro hth
    simp [monitorTick, timeoutTick, hfatal, hth]
  · intro hlt
    have : ¬(3 ≤ c + 1) := by omega
    simp [monitorTick, timeoutTick, hfatal, this]

/-- C4 witness: the amended escalation behaviour at counters 2 and 0. -/
theorem C4_escalation_witness :
    monitorTick 2 timeoutTick = ⟨0, some false, 1⟩
    ∧ monitorTick 0 timeoutTick = ⟨1, some false, 0⟩ :=
  ⟨(C4_escalation 2).2.1 (by decide), (C4_escalation 0).2.2.1 (by decide)⟩

/-- C5 counterexample: on a non-fatal status error with the monitor's counter
at 2, one periodic tick escalates (counter reaches the threshold, `setup` is
invoked) while the on-demand probe, which keeps no counter, performs no
rebuild — so the two probes do not make the same rebuild decision for every
outcome and state. -/
theorem C5_probe_counterexample :
    isFatalClientError "FLOOD_WAIT (420)" = false
    ∧ monitorTick 2 (.statusErr "FLOOD_WAIT (420)" false) = ⟨0, some false, 1⟩
    ∧ checkTick (.statusErr "FLOOD_WAIT (420)" false) = ⟨0, some false, 0⟩
    ∧ (monitorTick 2 (.statusErr "FLOOD_WAIT (420)" false)).setups
        ≠ (checkTick (.statusErr "FLOOD_WAIT (420)" false)).setups := by
  refine ⟨by decide, by decide, by decide, by decide⟩

/-- C5 (amended): as long as the periodic monitor's consecutive-error counter
is below threshold − 1 (so the tick cannot trip the threshold), the on-demand
probe performs the identical classification, readiness update, and rebuild
decision as one periodic tick for every probe outcome; the two differ exactly
in the counter-driven escalation, which the counterless on-demand probe never
performs. -/
theorem C5_probe_equivalence_below_threshold (c : ℕ) (inp : TickInput)
    (h : c + 1 < 3) :
    (monitorTick c inp).readyUpd = (checkTick inp).readyUpd
    ∧ (monitorTick c inp).setups = (checkTick inp).setups := by
  have hc : ¬(3 ≤ c + 1) := by omega
  cases inp with
  | noClient sf => simp [monitorTick, checkTick]
  | statusErr t sf =>
      by_cases hf : isFatalClientError t = true
      · simp [monitorTick, checkTick, hf, hc]
      · simp [monitorTick, checkTick, hf, hc]
  | statusOk a sf => cases a <;> simp [monitorTick, checkTick, hc]

/-- C5 witness: the equivalence at counter 0 on an authorized probe and on a
non-fatal error. -/
theorem C5_probe_equivalence_witness :
    ((monitorTick 0 (.statusOk true false)).readyUpd
        = (checkTick (.statusOk true false)).readyUpd
      ∧ (monitorTick 0 (.statusOk true false)).setups
        = (checkTick (.statusOk true false)).setups)
    ∧ ((monitorTick 0 (.statusErr "FLOOD_WAIT (420)" false)).readyUpd
        = (checkTick (.statusErr "FLOOD_WAIT (420)" false)).readyUpd
      ∧ (monitorTick 0 (.statusErr "FLOOD_WAIT (420)" false)).setups
        = (checkTick (.statusErr "FLOOD_WAIT (420)" false)).setups) :=
  ⟨C5_probe_equivalence_below_threshold 0 (.statusOk true false) (by decide),
   C5_probe_equivalence_below_threshold 0 (.statusErr "FLOOD_WAIT (420)" false)
     (by decide)⟩

/-- C6: an OK response whose body parses to zero key/value entries is reported
as `session.ErrNotFound` (not a connection error), while every transport
failure (request creation, send, body read) and every non-OK status is
reported as an `ETCDConnectionError` and never as not-found. -/
theorem C6_load_classification :
    (ETCDSessionStorage.Load (.response 200 (some [])) = LoadResult.notFound
      ∧ ∀ m, ETCDSessionStorage.Load (.response 200 (some []))
          ≠ LoadResult.connError m)
    ∧ (∀ out : ExchangeOutcome, transportFailed out = true →
        (∃ m, ETCDSessionStorage.Load out = LoadResult.connError m)
        ∧ ETCDSessionStorage.Load out ≠ LoadResult.notFound) := by
  refine ⟨⟨by decide, ?_⟩, ?_⟩
  · intro m h
    simp [ETCDSessionStorage.Load] at h
  · intro out h
    cases out with
    | reqCreateFail => exact ⟨⟨_, rfl⟩, by decide⟩
    | sendFail => exact ⟨⟨_, rfl⟩, by decide⟩
    | readBodyFail => exact ⟨⟨_, rfl⟩, by decide⟩
    | response code parsed =>
        have hcode : code ≠ 200 := by simpa [transportFailed] using h
        refine ⟨⟨"ETCD returned non-OK status", ?_⟩, ?_⟩ <;>
          simp [ETCDSessionStorage.Load, hcode]

/-- C6 witness: the transport-failure classification applied to a failed send. -/
theorem C6_load_classification_witness :
    (∃ m, ETCDSessionStorage.Load ExchangeOutcome.sendFail
        = LoadResult.connError m)
    ∧ ETCDSessionStorage.Load ExchangeOutcome.sendFail ≠ LoadResult.notFound :=
  C6_load_classification.2 ExchangeOutcome.sendFail (by decide)

/-- C7: for every byte sequence, a successful `Save` followed by a successful
`Load` on the remote backend returns exactly the saved bytes (assuming the
key-value server returns the stored base64 value unchanged): the base64
encoding applied by `Save` is exactly inverted by the decoding applied by
`Load`. -/
theorem C7_saveLoad_roundtrip (key : String) (v : List ℕ)
    (h : ∀ b ∈ v, b < 256) :
    ETCDSessionStorage.loadAfterSave key v = LoadResult.ok v := by
  have hr := b64_roundtrip v h
  simp [ETCDSessionStorage.loadAfterSave, ETCDSessionStorage.Load,
    ETCDSessionStorage.savedValue, hr]

/-- C7 witness: the round-trip on a concrete 5-byte session blob. -/
theorem C7_saveLoad_roundtrip_witness :
    (∀ b ∈ [0, 1, 77, 255, 128], b < 256)
    ∧ ETCDSessionStorage.loadAfterSave "telegram/sessions/ab"
        [0, 1, 77, 255, 128] = LoadResult.ok [0, 1, 77, 255, 128] :=
  ⟨by decide,
   C7_saveLoad_roundtrip "telegram/sessions/ab" [0, 1, 77, 255, 128] (by decide)⟩

/-- C8 counterexample: a `waitForCode` execution that terminates because the
context is cancelled leaves `AuthState` at "awaiting_code" — the `ctx.Done()`
arm performs no state reset — refuting the claim that the state is back to
"none" when the flow terminates by cancellation. -/
theorem C8_cancel_counterexample :
    (waitForCodeRun ⟨"none", "", 0⟩ .cancelled).1.AuthState = "awaiting_code"
    ∧ (waitForCodeRun ⟨"none", "", 0⟩ .cancelled).1.AuthState ≠ "none" := by
  refine ⟨rfl, by decide⟩

/-- C8 (amended): `AuthState` changes only at `waitForCode` entry (to
"awaiting_code") or on an accepted code submission while awaiting (to
"none"); the cancellation arm of `waitForCode` leaves the state untouched, so
a flow aborted by cancellation terminates still in "awaiting_code", not back
in "none". -/
theorem C8_authState_transitions (s : AuthFlowState) (op : AuthOp) :
    authStep s .cancelWait = s
    ∧ ((authStep s op).AuthState ≠ s.AuthState →
        (op = .enterWait ∧ (authStep s op).AuthState = "awaiting_code")
        ∨ (∃ v, op = .submit (.str v) ∧ s.AuthState = "awaiting_code"
            ∧ (authStep s op).AuthState = "none")) := by
  refine ⟨rfl, ?_⟩
  intro hch
  cases op with
  | enterWait => exact Or.inl ⟨rfl, rfl⟩
  | cancelWait => exact absurd rfl hch
  | submit p =>
      by_cases hst : s.AuthState = "awaiting_code"
      · cases p with
        | missing => simp [authStep, handleSendCode, hst] at hch
        | nonString => simp [authStep, handleSendCode, hst] at hch
        | str v => exact Or.inr ⟨v, rfl, hst, by simp [authStep, handleSendCode, hst]⟩
      · simp [authStep, handleSendCode, hst] at hch

/-- C8 witness: the amended transition discipline at the `waitForCode` entry
from the idle state, plus the no-op cancellation arm. -/
theorem C8_authState_transitions_witness :
    authStep ⟨"none", "", 0⟩ AuthOp.cancelWait = ⟨"none", "", 0⟩
    ∧ ((AuthOp.enterWait = AuthOp.enterWait
          ∧ (authStep ⟨"none", "", 0⟩ .enterWait).AuthState = "awaiting_code")
        ∨ (∃ v, AuthOp.enterWait = AuthOp.submit (.str v)
            ∧ (⟨"none", "", 0⟩ : AuthFlowState).AuthState = "awaiting_code"
            ∧ (authStep ⟨"none", "", 0⟩ .enterWait).AuthState = "none")) :=
  ⟨(C8_authState_transitions ⟨"none", "", 0⟩ .enterWait).1,
   (C8_authState_transitions ⟨"none", "", 0⟩ .enterWait).2 (by decide)⟩

/-- C9: dispatch is a total function that never fails as a unit: with no
registered listeners and no designated session it returns normally having
attempted nothing; in broadcast mode it attempts delivery to every registered
session regardless of per-listener failures (the attempted list does not
depend on which deliveries fail); and with a designated active `SessionID`
it targets only that session and no other registered one. -/
theorem C9_sendNotification_spec (env : NotifyEnv) (deliver : String → Bool) :
    SendNotification ⟨true, "", []⟩ deliver = []
    ∧ (env.sseServerUp = true → env.SessionID = "" →
        (SendNotification env deliver).map Prod.fst = env.sessions)
    ∧ (env.sseServerUp = true → env.SessionID ≠ "" →
        (SendNotification env deliver).map Prod.fst = [env.SessionID]) := by
  refine ⟨rfl, ?_, ?_⟩
  · intro h1 h2
    simp only [SendNotification, h1, h2, Bool.true_eq_false, if_false,
      ne_eq, not_true_eq_false, List.map_map]
    exact List.map_id env.sessions
  · intro h1 h2
    simp [SendNotification, h1, h2]

/-- C9 witness: broadcast attempts every registered session even when all
deliveries fail, and a designated session receives alone. -/
theorem C9_sendNotification_spec_witness :
    (SendNotification ⟨true, "", ["a", "b"]⟩ (fun _ => false)).map Prod.fst
        = ["a", "b"]
    ∧ (SendNotification ⟨true, "s9", ["a", "b"]⟩ (fun _ => false)).map Prod.fst
        = ["s9"] :=
  ⟨(C9_sendNotification_spec ⟨true, "", ["a", "b"]⟩ (fun _ => false)).2.1 rfl rfl,
   (C9_sendNotification_spec ⟨true, "s9", ["a", "b"]⟩ (fun _ => false)).2.2 rfl
     (by decide)⟩

/-- C10: every error satisfying `errors.Is(err, session.ErrNotFound)` is
classified as not an ETCD connection error, whatever its text contains — the
not-found exclusion precedes the connection-marker scan. -/
theorem C10_notFound_never_connError (e : GoError) (h : e.isNotFound = true) :
    isETCDConnectionError e = false := by
  simp [isETCDConnectionError, h]

/-- C10 witness: a not-found error whose text contains both the send-failure
and the connection-refused markers is still classified as non-fatal. -/
theorem C10_notFound_never_connError_witness :
    containsStr notFoundWithConnText.text "connection refused" = true
    ∧ containsStr notFoundWithConnText.text "failed to send HTTP request to ETCD" = true
    ∧ notFoundWithConnText.isNotFound = true
    ∧ isETCDConnectionError notFoundWithConnText = false :=
  ⟨by decide, by decide, rfl,
   C10_notFound_never_connError notFoundWithConnText rfl⟩

end TelegramClient
